import Mathlib

/-!
Shallow embedding of the authentication and authorization core of the
Estoque-Certo repository (src/models.py, src/gestao_usuarios.py,
src/main_auth.py, src/database.py), together with theorems settling the
specification claims about it.

Stored timestamps are modelled as natural numbers (an abstract clock value
passed to each operation that reads the current time).  Interactive
functions are modelled as pure functions of the values they would read
from the console, returning an explicit result together with the new
store state.
-/

namespace EstoqueCerto

/--
Modelled from the spec: the function verify_password is imported from the
module auth_utils, whose definition is not under src/ (src/database.py only
defines hash_password, and both delegate to the external bcrypt library).
Following the spec (section 4.1), a password hash is a salted, irreversible,
self-describing digest: verification recomputes the digest from the salt
embedded in the stored hash and compares.  The digest itself is idealised as
collision-free, so a hash value is represented abstractly by the salt it
embeds together with the digest, where two digests coincide exactly when the
hashed inputs coincide.  The per-call random salt of bcrypt.gensalt is
modelled by an explicit salt argument to hash_password.
-/
structure SenhaHash where
  salt : String
  digesto : String
deriving DecidableEq

/-- Embedding of hash_password (src/database.py lines 14-38), with the
random salt made an explicit argument (see SenhaHash). -/
def hash_password (salt : String) (password : String) : SenhaHash :=
  { salt := salt, digesto := password }

/-- Modelled from the spec: verify_password recomputes the digest from the
embedded salt and compares (spec section 4.1); under the idealised digest
this compares the hashed input with the supplied plaintext. -/
def verify_password (password : String) (h : SenhaHash) : Bool :=
  h.digesto == password

/-- Embedding of the Empresa model (src/models.py lines 27-68). -/
structure Empresa where
  id : Nat
  nome : String
  cnpj : String
  segmento : String
  ativa : Bool
  dataCadastro : Nat
  dataAtualizacao : Nat
deriving DecidableEq

/-- Embedding of the Permissao model (src/models.py lines 149-191). -/
structure Permissao where
  id : Nat
  codigo : String
  nome : String
  descricao : String
  ativa : Bool
deriving DecidableEq

/-- Embedding of the Usuario model (src/models.py lines 74-143).  The
many-to-many usuario_permissoes association is carried as the list of
Permissao records granted to the user, the way the SQLAlchemy relationship
presents it. -/
structure Usuario where
  id : Nat
  empresaId : Nat
  nome : String
  email : String
  senhaHash : SenhaHash
  ativo : Bool
  isAdmin : Bool
  ultimoLogin : Option Nat
  dataCadastro : Nat
  dataAtualizacao : Nat
  permissoes : List Permissao
deriving DecidableEq

/-- The relational store: the empresas, usuarios and permissoes tables plus
the autoincrement counters for their integer primary keys. -/
structure DB where
  empresas : List Empresa
  usuarios : List Usuario
  permissoes : List Permissao
  nextEmpresaId : Nat
  nextUsuarioId : Nat
  nextPermissaoId : Nat
deriving DecidableEq

/-- The empty store (fresh database). -/
def emptyDB : DB :=
  { empresas := [], usuarios := [], permissoes := [],
    nextEmpresaId := 1, nextUsuarioId := 1, nextPermissaoId := 1 }

/-- Model of Python str.strip(): drop whitespace from both ends.  Defined
structurally over the character list so that it evaluates inside the
kernel (String.trim does not). -/
def pyStrip (s : String) : String :=
  ⟨((s.data.dropWhile Char.isWhitespace).reverse.dropWhile Char.isWhitespace).reverse⟩

/-- Model of Python str.lower(). -/
def pyLower (s : String) : String :=
  ⟨s.data.map Char.toLower⟩

/-- Model of Python str.upper(). -/
def pyUpper (s : String) : String :=
  ⟨s.data.map Char.toUpper⟩

/-- Model of the Python membership test c in s for a single character. -/
def pyContains (s : String) (c : Char) : Bool :=
  s.data.contains c

/-- Model of Python str.isdigit(): nonempty and all characters digits. -/
def pyIsDigit (s : String) : Bool :=
  !s.data.isEmpty && s.data.all Char.isDigit

/-- Model of Python str.split(",") on the character list: cut at every
comma, keeping empty pieces. -/
def splitVirgulas : List Char → List (List Char)
  | [] => [[]]
  | c :: cs =>
      let r := splitVirgulas cs
      if c == ',' then [] :: r
      else
        match r with
        | [] => [[c]]
        | h :: t => (c :: h) :: t

/-- Decimal value of a nonempty all-digit character list, none otherwise. -/
def parseNatDigits : List Char → Option Nat
  | [] => none
  | ds =>
      if ds.all Char.isDigit then
        some (ds.foldl (fun acc c => acc * 10 + (c.toNat - '0'.toNat)) 0)
      else none

/-- Model of Python int(s) on an already stripped string: optional sign
followed by decimal digits, ValueError embedded as none. -/
def pyToInt? (s : String) : Option Int :=
  match s.data with
  | '-' :: rest => (parseNatDigits rest).map (fun n => -(n : Int))
  | '+' :: rest => (parseNatDigits rest).map (fun n => (n : Int))
  | l => (parseNatDigits l).map (fun n => (n : Int))

/-- Embedding of Usuario.tem_permissao (src/models.py lines 130-143). -/
def tem_permissao (u : Usuario) (codigoModulo : String) : Bool :=
  if u.isAdmin then
    true
  else
    u.permissoes.any (fun p => p.codigo == codigoModulo && p.ativa)

/-- Embedding of verificar_permissao (src/main_auth.py lines 40-55): the
global usuario_logado reference is passed explicitly as an Option. -/
def verificar_permissao (usuarioLogado : Option Usuario) (codigoModulo : String) : Bool :=
  match usuarioLogado with
  | none => false
  | some u => tem_permissao u codigoModulo

/-- The fixed catalog of five (codigo, nome, descricao) triples seeded by
criar_permissoes_padrao (src/models.py lines 204-230). -/
def permissoesPadrao : List (String × String × String) :=
  [("operacional", "Módulo Operacional", "Acesso ao cálculo de capacidade produtiva"),
   ("estoque_entrada", "Estoque - Entrada", "Cadastro de entrada de produtos no estoque"),
   ("estoque_saida", "Estoque - Saída", "Registro de saída e vendas de produtos"),
   ("financeiro", "Módulo Financeiro", "Acesso a análise de custos e lucros"),
   ("rh", "Módulo RH", "Acesso à folha de pagamento e gestão de funcionários")]

/-- One step of the seeding loop of criar_permissoes_padrao (src/models.py
lines 232-237): look for an existing row with the same codigo; insert a new
row, with ativa defaulting to true and the next primary key, only when none
exists. -/
def seedStep (s : DB) (pd : String × String × String) : DB :=
  match s.permissoes.find? (fun p => p.codigo == pd.1) with
  | some _ => s
  | none =>
      { s with
        permissoes := s.permissoes ++
          [{ id := s.nextPermissaoId, codigo := pd.1, nome := pd.2.1,
             descricao := pd.2.2, ativa := true }],
        nextPermissaoId := s.nextPermissaoId + 1 }

/-- Embedding of criar_permissoes_padrao (src/models.py lines 197-240). -/
def criar_permissoes_padrao (db : DB) : DB :=
  permissoesPadrao.foldl seedStep db

/-- Whether the permissoes table holds a row with the given codigo. -/
def temCodigo (db : DB) (c : String) : Bool :=
  db.permissoes.any (fun p => p.codigo == c)

/-- Result of cadastrar_empresa: each early-return error branch of the
source, or the created company. -/
inductive EmpresaResult where
  | errNome
  | errCnpj
  | errCnpjDuplicado
  | ok (e : Empresa)
deriving DecidableEq

/-- The segmentos dictionary lookup of cadastrar_empresa
(src/gestao_usuarios.py lines 54-62), defaulting to "Não especificado". -/
def segmentoDe (opcao : String) : String :=
  if opcao == "1" then "Indústria"
  else if opcao == "2" then "Comércio"
  else if opcao == "3" then "Serviços"
  else if opcao == "4" then "Logística"
  else if opcao == "5" then "Outro"
  else "Não especificado"

/-- Embedding of cadastrar_empresa (src/gestao_usuarios.py lines 17-90).
The console reads become the nomeInput, cnpjInput and segOpcao arguments
(the source applies .strip() to each, embedded as String.trim); agora is
the creation timestamp. -/
def cadastrar_empresa (db : DB) (nomeInput cnpjInput segOpcao : String) (agora : Nat) :
    EmpresaResult × DB :=
  let nome := pyStrip nomeInput
  if nome.length < 3 then (.errNome, db)
  else
    let cnpj := pyStrip cnpjInput
    if cnpj.length != 14 || !(pyIsDigit cnpj) then (.errCnpj, db)
    else
      match db.empresas.find? (fun e => e.cnpj == cnpj) with
      | some _ => (.errCnpjDuplicado, db)
      | none =>
          let empresa : Empresa :=
            { id := db.nextEmpresaId, nome := nome, cnpj := cnpj,
              segmento := segmentoDe (pyStrip segOpcao), ativa := true,
              dataCadastro := agora, dataAtualizacao := agora }
          (.ok empresa,
           { db with empresas := db.empresas ++ [empresa],
                     nextEmpresaId := db.nextEmpresaId + 1 })

/-- Result of cadastrar_usuario: each early-return error branch of the
source, or the created user. -/
inductive UsuarioResult where
  | errSemEmpresaAtiva
  | errEmpresaNaoEncontrada
  | errNome
  | errEmail
  | errEmailDuplicado
  | errSenhaCurta
  | errSenhasDiferentes
  | ok (u : Usuario)
deriving DecidableEq

/-- Embedding of cadastrar_usuario (src/gestao_usuarios.py lines 123-227).
The console reads become arguments; the empresaId argument is the already
parsed integer (the int() ValueError branch creates nothing and is not
modelled), salt is the fresh random salt consumed by hash_password, and
agora the creation timestamp.  The optional interactive follow-up call to
configurar_permissoes_usuario after a successful creation is a separate
operation and is not part of this function. -/
def cadastrar_usuario (db : DB) (empresaId : Nat)
    (nomeInput emailInput senha confirmaSenha isAdminInput salt : String)
    (agora : Nat) : UsuarioResult × DB :=
  if (db.empresas.filter (fun e => e.ativa)).isEmpty then (.errSemEmpresaAtiva, db)
  else
    match db.empresas.find? (fun e => e.id == empresaId) with
    | none => (.errEmpresaNaoEncontrada, db)
    | some empresa =>
        let nome := pyStrip nomeInput
        if nome.length < 3 then (.errNome, db)
        else
          let email := pyLower (pyStrip emailInput)
          if !(pyContains email '@') || !(pyContains email '.') then (.errEmail, db)
          else if (db.usuarios.find? (fun u => u.email == email)).isSome then
            (.errEmailDuplicado, db)
          else if senha.length < 6 then (.errSenhaCurta, db)
          else if senha != confirmaSenha then (.errSenhasDiferentes, db)
          else
            let isAdmin := pyUpper (pyStrip isAdminInput) == "S"
            let usuario : Usuario :=
              { id := db.nextUsuarioId, empresaId := empresa.id, nome := nome,
                email := email, senhaHash := hash_password salt senha,
                ativo := true, isAdmin := isAdmin, ultimoLogin := none,
                dataCadastro := agora, dataAtualizacao := agora, permissoes := [] }
            (.ok usuario,
             { db with usuarios := db.usuarios ++ [usuario],
                       nextUsuarioId := db.nextUsuarioId + 1 })

/-- Update of the single persisted user row picked out by its primary key
(the SQLAlchemy session mutates the mapped Usuario object in place). -/
def updateUsuario (db : DB) (uid : Nat) (f : Usuario → Usuario) : DB :=
  { db with usuarios := db.usuarios.map (fun v => if v.id == uid then f v else v) }

/-- Result of configurar_permissoes_usuario: each early-return branch of
the source. -/
inductive ConfigResult where
  | errUsuarioNaoEncontrado
  | adminSemAlteracao
  | removidas
  | todas
  | configuradas
  | errValor
deriving DecidableEq

/-- The permission catalog visible to configurar_permissoes_usuario: when
the query for active permissions comes back empty, the source first seeds
the default catalog (src/gestao_usuarios.py lines 312-317). -/
def catalogoEfetivo (db : DB) : DB :=
  if (db.permissoes.filter (fun p => p.ativa)).isEmpty then
    criar_permissoes_padrao db
  else
    db

/-- Parse of the comma-separated id list (src/gestao_usuarios.py line 353):
int() on each comma-separated piece after .strip(); any piece that is not
an integer raises ValueError, embedded as none. -/
def parseIds (escolha : String) : Option (List Int) :=
  (splitVirgulas escolha.data).mapM (fun cs => pyToInt? (pyStrip ⟨cs⟩))

/-- Embedding of configurar_permissoes_usuario (src/gestao_usuarios.py
lines 277-379).  The console reads become the usuarioId and escolha
arguments (the source lowercases and strips escolha); escolha is read only
after the catalog was possibly seeded (catalogoEfetivo). -/
def configurar_permissoes_usuario (db : DB) (usuarioId : Nat) (escolha : String) :
    ConfigResult × DB :=
  match db.usuarios.find? (fun u => u.id == usuarioId) with
  | none => (.errUsuarioNaoEncontrado, db)
  | some usuario =>
      if usuario.isAdmin then (.adminSemAlteracao, db)
      else
        let db1 := catalogoEfetivo db
        let permissoesAtivas := db1.permissoes.filter (fun p => p.ativa)
        let esc := pyLower (pyStrip escolha)
        if esc == "nenhum" then
          (.removidas, updateUsuario db1 usuarioId (fun u => { u with permissoes := [] }))
        else if esc == "todos" then
          (.todas, updateUsuario db1 usuarioId (fun u => { u with permissoes := permissoesAtivas }))
        else
          match parseIds esc with
          | none => (.errValor, db1)
          | some ids =>
              let novas := ids.filterMap
                (fun i => db1.permissoes.find? (fun p => (p.id : Int) == i))
              (.configuradas,
               updateUsuario db1 usuarioId (fun u => { u with permissoes := novas }))

/-- Result of fazer_login: each early-return branch of the source.  The
errEmpresaAusente value covers the store where usuario.empresa resolves to
no row at all, on which the source expression usuario.empresa.ativa would
raise; every theorem about login with a company check assumes the foreign
key resolves. -/
inductive LoginResult where
  | errCredenciais
  | errUsuarioInativo
  | errEmpresaInativa
  | errEmpresaAusente
  | ok (u : Usuario)
deriving DecidableEq

/-- Embedding of fazer_login (src/gestao_usuarios.py lines 385-448).  The
console reads become the emailInput and senha arguments (the source strips
and lowercases the email); agora is the clock value used for ultimo_login.
On success the persisted row additionally gets data_atualizacao refreshed
by the column onupdate default (src/models.py line 104). -/
def fazer_login (db : DB) (emailInput senha : String) (agora : Nat) :
    LoginResult × DB :=
  let email := pyLower (pyStrip emailInput)
  match db.usuarios.find? (fun u => u.email == email) with
  | none => (.errCredenciais, db)
  | some usuario =>
      if !usuario.ativo then (.errUsuarioInativo, db)
      else
        match db.empresas.find? (fun e => e.id == usuario.empresaId) with
        | none => (.errEmpresaAusente, db)
        | some empresa =>
            if !empresa.ativa then (.errEmpresaInativa, db)
            else if !(verify_password senha usuario.senhaHash) then (.errCredenciais, db)
            else
              let atualizado :=
                { usuario with ultimoLogin := some agora, dataAtualizacao := agora }
              (.ok atualizado, updateUsuario db usuario.id (fun _ => atualizado))

/-- Whether a login result is one of the four rejection outcomes. -/
def ehFalhaLogin : LoginResult → Bool
  | .ok _ => false
  | _ => true

/-- Whether a cadastrar_usuario result is one of the error outcomes. -/
def ehFalhaUsuario : UsuarioResult → Bool
  | .ok _ => false
  | _ => true

/-- Whether a cadastrar_empresa result is one of the error outcomes. -/
def ehFalhaEmpresa : EmpresaResult → Bool
  | .ok _ => false
  | _ => true

/-- Whether a configurar_permissoes_usuario result is one of the outcomes
that assigns no permission set (not found, admin no-op, bad id list). -/
def ehFalhaConfig : ConfigResult → Bool
  | .errUsuarioNaoEncontrado => true
  | .adminSemAlteracao => true
  | .errValor => true
  | _ => false

/-- Store with one active company (id 1) and one inactive company (id 2),
no users and no permissions. -/
def dbDuasEmpresas : DB :=
  { empresas :=
      [{ id := 1, nome := "Ativa Ltda", cnpj := "11111111111111",
         segmento := "Indústria", ativa := true, dataCadastro := 0, dataAtualizacao := 0 },
       { id := 2, nome := "Inativa Ltda", cnpj := "22222222222222",
         segmento := "Comércio", ativa := false, dataCadastro := 0, dataAtualizacao := 0 }],
    usuarios := [], permissoes := [],
    nextEmpresaId := 3, nextUsuarioId := 1, nextPermissaoId := 1 }

/-- The user record that registering Bruno Souza against company 2 of
dbDuasEmpresas creates. -/
def usuarioBruno : Usuario :=
  { id := 1, empresaId := 2, nome := "Bruno Souza", email := "bruno@ex.com",
    senhaHash := hash_password "salt" "segredo1", ativo := true,
    isAdmin := false, ultimoLogin := none, dataCadastro := 7,
    dataAtualizacao := 7, permissoes := [] }

/-- The company of the concrete login store dbLogin. -/
def empresaAcme : Empresa :=
  { id := 1, nome := "Acme Ltda", cnpj := "12345678901234",
    segmento := "Indústria", ativa := true, dataCadastro := 0, dataAtualizacao := 0 }

/-- An active non-admin user of empresaAcme whose password is segredo1. -/
def usuarioAna : Usuario :=
  { id := 1, empresaId := 1, nome := "Ana Lima", email := "ana@ex.com",
    senhaHash := hash_password "saltX" "segredo1", ativo := true, isAdmin := false,
    ultimoLogin := none, dataCadastro := 0, dataAtualizacao := 0, permissoes := [] }

/-- Concrete store with one active company and one active user, used to
exercise the login theorems. -/
def dbLogin : DB :=
  { empresas := [empresaAcme], usuarios := [usuarioAna], permissoes := [],
    nextEmpresaId := 2, nextUsuarioId := 2, nextPermissaoId := 1 }

/-- An active non-admin user of empresaAcme with no granted permissions. -/
def usuarioBeto : Usuario :=
  { id := 1, empresaId := 1, nome := "Beto Cruz", email := "beto@ex.com",
    senhaHash := hash_password "s" "x123456", ativo := true, isAdmin := false,
    ultimoLogin := none, dataCadastro := 0, dataAtualizacao := 0, permissoes := [] }

/-- Concrete store with one active company, one non-admin user and an
empty permission catalog, used to exercise the permission-assignment
theorems. -/
def dbBeto : DB :=
  { empresas := [empresaAcme], usuarios := [usuarioBeto], permissoes := [],
    nextEmpresaId := 2, nextUsuarioId := 2, nextPermissaoId := 1 }

/- ========================================================================
   Theorems
   ======================================================================== -/

theorem seedStep_temCodigo_self (s : DB) (pd : String × String × String) :
    temCodigo (seedStep s pd) pd.1 = true := by
  unfold seedStep
  cases hf : s.permissoes.find? (fun p => p.codigo == pd.1) with
  | some p =>
      have hmem := List.mem_of_find?_eq_some hf
      have hp := List.find?_some hf
      simp only [temCodigo, List.any_eq_true]
      exact ⟨p, hmem, hp⟩
  | none =>
      simp [temCodigo, List.any_eq_true]

theorem seedStep_temCodigo_mono (s : DB) (pd : String × String × String) (c : String)
    (h : temCodigo s c = true) : temCodigo (seedStep s pd) c = true := by
  unfold seedStep
  cases hf : s.permissoes.find? (fun p => p.codigo == pd.1) with
  | some p => exact h
  | none =>
      simp only [temCodigo, List.any_eq_true] at h ⊢
      obtain ⟨q, hm, hq⟩ := h
      exact ⟨q, List.mem_append_left _ hm, hq⟩

theorem seedStep_of_temCodigo (s : DB) (pd : String × String × String)
    (h : temCodigo s pd.1 = true) : seedStep s pd = s := by
  unfold seedStep
  cases hf : s.permissoes.find? (fun p => p.codigo == pd.1) with
  | some p => rfl
  | none =>
      exfalso
      rw [List.find?_eq_none] at hf
      simp only [temCodigo, List.any_eq_true] at h
      obtain ⟨q, hm, hq⟩ := h
      exact hf q hm hq

theorem foldl_temCodigo_mono (l : List (String × String × String)) (s : DB) (c : String)
    (h : temCodigo s c = true) : temCodigo (l.foldl seedStep s) c = true := by
  induction l generalizing s with
  | nil => exact h
  | cons q t ih => exact ih (seedStep s q) (seedStep_temCodigo_mono s q c h)

theorem foldl_temCodigo_mem (l : List (String × String × String))
    (pd : String × String × String) :
    pd ∈ l → ∀ s : DB, temCodigo (l.foldl seedStep s) pd.1 = true := by
  induction l with
  | nil => intro h; cases h
  | cons q t ih =>
      intro h s
      rcases List.mem_cons.mp h with hq | h2
      · subst hq; exact foldl_temCodigo_mono t _ _ (seedStep_temCodigo_self s pd)
      · exact ih h2 _

theorem foldl_seedStep_id (l : List (String × String × String)) :
    ∀ s : DB, (∀ pd ∈ l, temCodigo s pd.1 = true) → l.foldl seedStep s = s := by
  induction l with
  | nil => intro s _; rfl
  | cons q t ih =>
      intro s h
      rw [List.foldl_cons, seedStep_of_temCodigo s q (h q (List.mem_cons_self q t))]
      exact ih s (fun pd hm => h pd (List.mem_cons_of_mem q hm))

theorem criar_permissoes_idem (db : DB) :
    criar_permissoes_padrao (criar_permissoes_padrao db) = criar_permissoes_padrao db := by
  unfold criar_permissoes_padrao
  exact foldl_seedStep_id _ _ (fun pd hm => foldl_temCodigo_mem _ pd hm db)

theorem seedStep_append (s : DB) (pd : String × String × String) :
    ∃ t, (seedStep s pd).permissoes = s.permissoes ++ t ∧
      ∀ q ∈ t, q.codigo = pd.1 ∧ temCodigo s q.codigo = false := by
  unfold seedStep
  cases hf : s.permissoes.find? (fun p => p.codigo == pd.1) with
  | some p => exact ⟨[], by simp, by simp⟩
  | none =>
      refine ⟨_, rfl, ?_⟩
      intro q hq
      simp only [List.mem_singleton] at hq
      subst hq
      refine ⟨rfl, ?_⟩
      rw [List.find?_eq_none] at hf
      simp only [temCodigo, List.any_eq_false]
      intro p hp
      exact hf p hp

theorem foldl_seedStep_append (l : List (String × String × String)) :
    ∀ s : DB, ∃ t, (l.foldl seedStep s).permissoes = s.permissoes ++ t ∧
      ∀ q ∈ t, (∃ pd ∈ l, q.codigo = pd.1) ∧ temCodigo s q.codigo = false := by
  induction l with
  | nil => intro s; exact ⟨[], by simp, by simp⟩
  | cons p t ih =>
      intro s
      obtain ⟨t0, h0, hq0⟩ := seedStep_append s p
      obtain ⟨t1, h1, hq1⟩ := ih (seedStep s p)
      refine ⟨t0 ++ t1, ?_, ?_⟩
      · rw [List.foldl_cons, h1, h0, List.append_assoc]
      · intro q hq
        rcases List.mem_append.mp hq with hql | hqr
        · obtain ⟨hc, hnc⟩ := hq0 q hql
          exact ⟨⟨p, List.mem_cons_self p t, hc⟩, hnc⟩
        · obtain ⟨⟨pd, hpd, hc⟩, hnc⟩ := hq1 q hqr
          refine ⟨⟨pd, List.mem_cons_of_mem p hpd, hc⟩, ?_⟩
          cases hb : temCodigo s q.codigo with
          | false => rfl
          | true =>
              rw [seedStep_temCodigo_mono s p q.codigo hb] at hnc
              exact absurd hnc (by simp)

theorem iterate_criar_emptyDB :
    ∀ n : Nat, 1 ≤ n →
      criar_permissoes_padrao^[n] emptyDB = criar_permissoes_padrao emptyDB := by
  intro n
  induction n with
  | zero => intro h; exact absurd h (by decide)
  | succ k ih =>
      intro _
      cases Nat.eq_zero_or_pos k with
      | inl h0 => subst h0; rfl
      | inr hk => rw [Function.iterate_succ_apply', ih hk, criar_permissoes_idem]

/-- C4: the default-permission seeding is idempotent; it only appends rows,
each appended row carrying one of the five fixed catalog codes and only
when no row with that code existed (so it never modifies any field of an
existing row); and from the empty store, N calls (N at least 1) leave
exactly the five catalog rows with the fixed codes and descriptions. -/
theorem criar_permissoes_padrao_idempotente :
    (∀ db : DB,
       criar_permissoes_padrao (criar_permissoes_padrao db) = criar_permissoes_padrao db) ∧
    (∀ db : DB, ∃ novas,
       (criar_permissoes_padrao db).permissoes = db.permissoes ++ novas ∧
       ∀ q ∈ novas, (∃ pd ∈ permissoesPadrao, q.codigo = pd.1) ∧
         temCodigo db q.codigo = false) ∧
    (∀ n : Nat, 1 ≤ n →
       (criar_permissoes_padrao^[n] emptyDB).permissoes.map
           (fun p => (p.codigo, p.descricao)) =
         permissoesPadrao.map (fun pd => (pd.1, pd.2.2))) := by
  refine ⟨criar_permissoes_idem, fun db => foldl_seedStep_append permissoesPadrao db, ?_⟩
  intro n hn
  rw [iterate_criar_emptyDB n hn]
  rfl

/-- Concrete instance of criar_permissoes_padrao_idempotente: two calls on
the empty store leave exactly the five fixed (code, description) rows. -/
theorem criar_permissoes_padrao_idempotente_witness :
    (1 ≤ 2) ∧
    ((criar_permissoes_padrao^[2] emptyDB).permissoes.map
        (fun p => (p.codigo, p.descricao)) =
      permissoesPadrao.map (fun pd => (pd.1, pd.2.2))) :=
  ⟨by decide, criar_permissoes_padrao_idempotente.2.2 2 (by decide)⟩

theorem cadastrar_empresa_errNome (db : DB) (nome cnpj seg : String) (agora : Nat)
    (h : (pyStrip nome).length < 3) :
    cadastrar_empresa db nome cnpj seg agora = (.errNome, db) := by
  simp [cadastrar_empresa, h]

theorem cadastrar_empresa_errCnpj (db : DB) (nome cnpj seg : String) (agora : Nat)
    (h1 : ¬ (pyStrip nome).length < 3)
    (h2 : ((pyStrip cnpj).length != 14 || !(pyIsDigit (pyStrip cnpj))) = true) :
    cadastrar_empresa db nome cnpj seg agora = (.errCnpj, db) := by
  simp only [cadastrar_empresa, if_neg h1, h2, if_true]

theorem cadastrar_empresa_dup (db : DB) (nome cnpj seg : String) (agora : Nat)
    (e : Empresa)
    (h1 : ¬ (pyStrip nome).length < 3)
    (h2 : ((pyStrip cnpj).length != 14 || !(pyIsDigit (pyStrip cnpj))) = false)
    (h3 : db.empresas.find? (fun e => e.cnpj == pyStrip cnpj) = some e) :
    cadastrar_empresa db nome cnpj seg agora = (.errCnpjDuplicado, db) := by
  simp only [cadastrar_empresa, if_neg h1, h2, Bool.false_eq_true, if_false, h3]

theorem cadastrar_empresa_ok (db : DB) (nome cnpj seg : String) (agora : Nat)
    (h1 : ¬ (pyStrip nome).length < 3)
    (h2 : ((pyStrip cnpj).length != 14 || !(pyIsDigit (pyStrip cnpj))) = false)
    (h3 : db.empresas.find? (fun e => e.cnpj == pyStrip cnpj) = none) :
    cadastrar_empresa db nome cnpj seg agora =
      (.ok { id := db.nextEmpresaId, nome := pyStrip nome, cnpj := pyStrip cnpj,
             segmento := segmentoDe (pyStrip seg), ativa := true,
             dataCadastro := agora, dataAtualizacao := agora },
       { db with
         empresas := db.empresas ++
           [{ id := db.nextEmpresaId, nome := pyStrip nome, cnpj := pyStrip cnpj,
              segmento := segmentoDe (pyStrip seg), ativa := true,
              dataCadastro := agora, dataAtualizacao := agora }],
         nextEmpresaId := db.nextEmpresaId + 1 }) := by
  simp only [cadastrar_empresa, if_neg h1, h2, Bool.false_eq_true, if_false, h3]

/-- C7: company registration fails, creating no company, whenever the
trimmed name has fewer than 3 characters, the trimmed taxId (cnpj) is not a
string of exactly 14 digits, or a company with the same cnpj already
exists; with a valid name, a well-formed fresh cnpj it succeeds and appends
the new company; and a second registration with the same cnpj then fails
with the duplicate-cnpj conflict, changing nothing. -/
theorem cadastrar_empresa_spec (db : DB) (nome cnpj seg : String) (agora : Nat) :
    ((pyStrip nome).length < 3 →
       (cadastrar_empresa db nome cnpj seg agora).2 = db ∧
       ∀ e, (cadastrar_empresa db nome cnpj seg agora).1 ≠ .ok e) ∧
    (¬ ((pyStrip cnpj).length = 14 ∧ pyIsDigit (pyStrip cnpj) = true) →
       (cadastrar_empresa db nome cnpj seg agora).2 = db ∧
       ∀ e, (cadastrar_empresa db nome cnpj seg agora).1 ≠ .ok e) ∧
    ((∃ e ∈ db.empresas, e.cnpj = pyStrip cnpj) →
       (cadastrar_empresa db nome cnpj seg agora).2 = db ∧
       ∀ e, (cadastrar_empresa db nome cnpj seg agora).1 ≠ .ok e) ∧
    (3 ≤ (pyStrip nome).length → (pyStrip cnpj).length = 14 → pyIsDigit (pyStrip cnpj) = true →
       (∀ e ∈ db.empresas, e.cnpj ≠ pyStrip cnpj) →
       ∃ emp, (cadastrar_empresa db nome cnpj seg agora).1 = .ok emp ∧
         emp.cnpj = pyStrip cnpj ∧ emp.ativa = true ∧
         (cadastrar_empresa db nome cnpj seg agora).2.empresas = db.empresas ++ [emp]) ∧
    (∀ emp, (cadastrar_empresa db nome cnpj seg agora).1 = .ok emp →
       ∀ nome2 seg2 agora2, 3 ≤ (pyStrip nome2).length →
         cadastrar_empresa (cadastrar_empresa db nome cnpj seg agora).2
             nome2 cnpj seg2 agora2 =
           (.errCnpjDuplicado, (cadastrar_empresa db nome cnpj seg agora).2)) := by
  refine ⟨fun h => ?_, fun h => ?_, fun h => ?_, fun h1 h2 h3 h4 => ?_,
          fun emp hemp nome2 seg2 agora2 h5 => ?_⟩
  · rw [cadastrar_empresa_errNome db nome cnpj seg agora h]
    exact ⟨rfl, fun e => by simp⟩
  · by_cases h1 : (pyStrip nome).length < 3
    · rw [cadastrar_empresa_errNome db nome cnpj seg agora h1]
      exact ⟨rfl, fun e => by simp⟩
    · have h2 : ((pyStrip cnpj).length != 14 || !(pyIsDigit (pyStrip cnpj))) = true := by
        by_cases hl : (pyStrip cnpj).length = 14
        · have hd : pyIsDigit (pyStrip cnpj) = false := by
            cases hx : pyIsDigit (pyStrip cnpj)
            · rfl
            · exact absurd ⟨hl, hx⟩ h
          simp [hd]
        · simp [hl]
      rw [cadastrar_empresa_errCnpj db nome cnpj seg agora h1 h2]
      exact ⟨rfl, fun e => by simp⟩
  · by_cases h1 : (pyStrip nome).length < 3
    · rw [cadastrar_empresa_errNome db nome cnpj seg agora h1]
      exact ⟨rfl, fun e => by simp⟩
    · by_cases h2 : ((pyStrip cnpj).length != 14 || !(pyIsDigit (pyStrip cnpj))) = true
      · rw [cadastrar_empresa_errCnpj db nome cnpj seg agora h1 h2]
        exact ⟨rfl, fun e => by simp⟩
      · have h2f : ((pyStrip cnpj).length != 14 || !(pyIsDigit (pyStrip cnpj))) = false := by
          cases hx : ((pyStrip cnpj).length != 14 || !(pyIsDigit (pyStrip cnpj)))
          · rfl
          · exact absurd hx h2
        obtain ⟨e0, he0, hce0⟩ := h
        have hsome : (db.empresas.find? (fun e => e.cnpj == pyStrip cnpj)).isSome := by
          rw [List.find?_isSome]
          exact ⟨e0, he0, by simp [hce0]⟩
        cases hf : db.empresas.find? (fun e => e.cnpj == pyStrip cnpj) with
        | none => rw [hf] at hsome; simp at hsome
        | some e1 =>
            rw [cadastrar_empresa_dup db nome cnpj seg agora e1 h1 h2f hf]
            exact ⟨rfl, fun e => by simp⟩
  · have h1n : ¬ (pyStrip nome).length < 3 := by omega
    have h2f : ((pyStrip cnpj).length != 14 || !(pyIsDigit (pyStrip cnpj))) = false := by
      simp [h2, h3]
    have hf : db.empresas.find? (fun e => e.cnpj == pyStrip cnpj) = none := by
      rw [List.find?_eq_none]
      intro e he
      simp [h4 e he]
    rw [cadastrar_empresa_ok db nome cnpj seg agora h1n h2f hf]
    exact ⟨_, rfl, rfl, rfl, rfl⟩
  · by_cases h1 : (pyStrip nome).length < 3
    · rw [cadastrar_empresa_errNome db nome cnpj seg agora h1] at hemp
      simp at hemp
    · by_cases h2 : ((pyStrip cnpj).length != 14 || !(pyIsDigit (pyStrip cnpj))) = true
      · rw [cadastrar_empresa_errCnpj db nome cnpj seg agora h1 h2] at hemp
        simp at hemp
      · have h2f : ((pyStrip cnpj).length != 14 || !(pyIsDigit (pyStrip cnpj))) = false := by
          cases hx : ((pyStrip cnpj).length != 14 || !(pyIsDigit (pyStrip cnpj)))
          · rfl
          · exact absurd hx h2
        cases hf : db.empresas.find? (fun e => e.cnpj == pyStrip cnpj) with
        | some e1 =>
            rw [cadastrar_empresa_dup db nome cnpj seg agora e1 h1 h2f hf] at hemp
            simp at hemp
        | none =>
            rw [cadastrar_empresa_ok db nome cnpj seg agora h1 h2f hf]
            have h5n : ¬ (pyStrip nome2).length < 3 := by omega
            have hf2 : ({ db with
                empresas := db.empresas ++
                  [{ id := db.nextEmpresaId, nome := pyStrip nome, cnpj := pyStrip cnpj,
                     segmento := segmentoDe (pyStrip seg), ativa := true,
                     dataCadastro := agora, dataAtualizacao := agora }],
                nextEmpresaId := db.nextEmpresaId + 1 } : DB).empresas.find?
                  (fun e => e.cnpj == pyStrip cnpj) =
                some ((db.empresas.find? (fun e => e.cnpj == pyStrip cnpj)).getD
                  { id := db.nextEmpresaId, nome := pyStrip nome, cnpj := pyStrip cnpj,
                    segmento := segmentoDe (pyStrip seg), ativa := true,
                    dataCadastro := agora, dataAtualizacao := agora }) := by
              rw [List.find?_append, hf]
              simp
            rw [hf] at hf2
            exact cadastrar_empresa_dup _ nome2 cnpj seg2 agora2 _ h5n h2f hf2

/-- Concrete instance of cadastrar_empresa_spec: registering Acme Ltda with
a fresh 14-digit cnpj on the empty store succeeds, and a second
registration with the same cnpj fails with the duplicate-cnpj conflict. -/
theorem cadastrar_empresa_spec_witness :
    (3 ≤ (pyStrip "Acme Ltda").length) ∧
    (∃ emp, (cadastrar_empresa emptyDB "Acme Ltda" "12345678901234" "1" 0).1 = .ok emp ∧
       emp.cnpj = pyStrip "12345678901234" ∧ emp.ativa = true ∧
       (cadastrar_empresa emptyDB "Acme Ltda" "12345678901234" "1" 0).2.empresas =
         emptyDB.empresas ++ [emp]) ∧
    (cadastrar_empresa (cadastrar_empresa emptyDB "Acme Ltda" "12345678901234" "1" 0).2
         "Outra SA" "12345678901234" "2" 1 =
       (.errCnpjDuplicado, (cadastrar_empresa emptyDB "Acme Ltda" "12345678901234" "1" 0).2)) :=
  ⟨by decide,
   (cadastrar_empresa_spec emptyDB "Acme Ltda" "12345678901234" "1" 0).2.2.2.1
     (by decide) (by decide) (by decide) (by simp [emptyDB]),
   (cadastrar_empresa_spec emptyDB "Acme Ltda" "12345678901234" "1" 0).2.2.2.2
     { id := 1, nome := "Acme Ltda", cnpj := "12345678901234",
       segmento := "Indústria", ativa := true, dataCadastro := 0, dataAtualizacao := 0 }
     (by decide) "Outra SA" "2" 1 (by decide)⟩

theorem cadastrar_usuario_casos (db : DB) (eid : Nat)
    (nome email senha confirma adm salt : String) (agora : Nat) :
    ((cadastrar_usuario db eid nome email senha confirma adm salt agora).2 = db ∧
     ehFalhaUsuario (cadastrar_usuario db eid nome email senha confirma adm salt agora).1 = true) ∨
    (∃ emp, (db.empresas.filter (fun e => e.ativa)).isEmpty = false ∧
       db.empresas.find? (fun e => e.id == eid) = some emp ∧
       3 ≤ (pyStrip nome).length ∧
       pyContains (pyLower (pyStrip email)) '@' = true ∧
       pyContains (pyLower (pyStrip email)) '.' = true ∧
       db.usuarios.find? (fun v => v.email == pyLower (pyStrip email)) = none ∧
       6 ≤ senha.length ∧
       senha = confirma ∧
       cadastrar_usuario db eid nome email senha confirma adm salt agora =
         (.ok { id := db.nextUsuarioId, empresaId := emp.id, nome := pyStrip nome,
                email := pyLower (pyStrip email), senhaHash := hash_password salt senha,
                ativo := true, isAdmin := pyUpper (pyStrip adm) == "S",
                ultimoLogin := none, dataCadastro := agora, dataAtualizacao := agora,
                permissoes := [] },
          { db with
            usuarios := db.usuarios ++
              [{ id := db.nextUsuarioId, empresaId := emp.id, nome := pyStrip nome,
                 email := pyLower (pyStrip email), senhaHash := hash_password salt senha,
                 ativo := true, isAdmin := pyUpper (pyStrip adm) == "S",
                 ultimoLogin := none, dataCadastro := agora, dataAtualizacao := agora,
                 permissoes := [] }],
            nextUsuarioId := db.nextUsuarioId + 1 })) := by
  simp only [cadastrar_usuario]
  split
  · exact Or.inl ⟨rfl, rfl⟩
  · rename_i hE
    split
    · exact Or.inl ⟨rfl, rfl⟩
    · rename_i emp hemp
      split
      · exact Or.inl ⟨rfl, rfl⟩
      · rename_i hn
        split
        · exact Or.inl ⟨rfl, rfl⟩
        · rename_i hm
          split
          · exact Or.inl ⟨rfl, rfl⟩
          · rename_i hd
            split
            · exact Or.inl ⟨rfl, rfl⟩
            · rename_i hs
              split
              · exact Or.inl ⟨rfl, rfl⟩
              · rename_i hc
                refine Or.inr ⟨emp, ?_, hemp, ?_, ?_, ?_, ?_, ?_, ?_, rfl⟩
                · simpa using hE
                · omega
                · simp at hm; exact hm.1
                · simp at hm; exact hm.2
                · cases ho : db.usuarios.find? (fun v => v.email == pyLower (pyStrip email)) with
                  | none => rfl
                  | some v => rw [ho] at hd; simp at hd
                · omega
                · simpa using hc

theorem cadastrar_usuario_ok_inv (db : DB) (eid : Nat)
    (nome email senha confirma adm salt : String) (agora : Nat) (u : Usuario)
    (h : (cadastrar_usuario db eid nome email senha confirma adm salt agora).1 = .ok u) :
    (db.empresas.filter (fun e => e.ativa)).isEmpty = false ∧
    3 ≤ (pyStrip nome).length ∧
    pyContains (pyLower (pyStrip email)) '@' = true ∧
    pyContains (pyLower (pyStrip email)) '.' = true ∧
    db.usuarios.find? (fun v => v.email == pyLower (pyStrip email)) = none ∧
    6 ≤ senha.length ∧
    senha = confirma ∧
    (∃ emp, db.empresas.find? (fun e => e.id == eid) = some emp ∧
       u = { id := db.nextUsuarioId, empresaId := emp.id, nome := pyStrip nome,
             email := pyLower (pyStrip email), senhaHash := hash_password salt senha,
             ativo := true, isAdmin := pyUpper (pyStrip adm) == "S",
             ultimoLogin := none, dataCadastro := agora, dataAtualizacao := agora,
             permissoes := [] }) ∧
    (cadastrar_usuario db eid nome email senha confirma adm salt agora).2 =
      { db with usuarios := db.usuarios ++ [u],
                nextUsuarioId := db.nextUsuarioId + 1 } := by
  rcases cadastrar_usuario_casos db eid nome email senha confirma adm salt agora with
    ⟨_, hfail⟩ | ⟨emp, hE, hemp, hn, ha, hp, hd, hs, hc, heq⟩
  · rw [h] at hfail; simp [ehFalhaUsuario] at hfail
  · simp only [heq] at h
    injection h with hu
    refine ⟨hE, hn, ha, hp, hd, hs, hc, ⟨emp, hemp, hu.symm⟩, ?_⟩
    rw [heq, ← hu]

theorem cadastrar_usuario_falha_estado (db : DB) (eid : Nat)
    (nome email senha confirma adm salt : String) (agora : Nat)
    (h : ehFalhaUsuario (cadastrar_usuario db eid nome email senha confirma adm salt agora).1 = true) :
    (cadastrar_usuario db eid nome email senha confirma adm salt agora).2 = db := by
  rcases cadastrar_usuario_casos db eid nome email senha confirma adm salt agora with
    ⟨hst, _⟩ | ⟨emp, _, _, _, _, _, _, _, _, heq⟩
  · exact hst
  · rw [heq] at h; simp [ehFalhaUsuario] at h

/-- C3 (counterexample): in the store dbDuasEmpresas, company 2 exists but
is inactive, yet registering a user against companyId 2 succeeds and
creates the user — the claim that registration fails whenever the supplied
companyId does not reference an existing ACTIVE company is false on the
code (the lookup at src/gestao_usuarios.py line 149 does not filter on the
active flag). -/
theorem cadastrar_usuario_empresa_inativa :
    (∃ e ∈ dbDuasEmpresas.empresas, e.id = 2 ∧ e.ativa = false) ∧
    ((cadastrar_usuario dbDuasEmpresas 2 "Bruno Souza" "bruno@ex.com"
        "segredo1" "segredo1" "N" "salt" 7).1 = .ok usuarioBruno) ∧
    ((cadastrar_usuario dbDuasEmpresas 2 "Bruno Souza" "bruno@ex.com"
        "segredo1" "segredo1" "N" "salt" 7).2.usuarios.length = 1) := by
  refine ⟨?_, ?_, ?_⟩ <;> decide

/-- C3 (amended): user registration fails, creating no user and changing
nothing, whenever the trimmed name has fewer than 3 characters, the
normalized email lacks an at-sign or a dot, a user with the same
normalized email already exists, the password has fewer than 6 characters,
the password differs from its confirmation, no active company exists at
all, or the supplied companyId does not reference an existing company
(whether active or not — the referenced company itself need not be
active); when all checks pass, the created user is appended and its stored
passwordHash is hash_password of the plaintext, which verify_password
accepts. -/
theorem cadastrar_usuario_spec (db : DB) (eid : Nat)
    (nome email senha confirma adm salt : String) (agora : Nat) :
    ((pyStrip nome).length < 3 →
       (cadastrar_usuario db eid nome email senha confirma adm salt agora).2 = db ∧
       ∀ u, (cadastrar_usuario db eid nome email senha confirma adm salt agora).1 ≠ .ok u) ∧
    (pyContains (pyLower (pyStrip email)) '@' = false ∨
       pyContains (pyLower (pyStrip email)) '.' = false →
       (cadastrar_usuario db eid nome email senha confirma adm salt agora).2 = db ∧
       ∀ u, (cadastrar_usuario db eid nome email senha confirma adm salt agora).1 ≠ .ok u) ∧
    ((∃ v ∈ db.usuarios, v.email = pyLower (pyStrip email)) →
       (cadastrar_usuario db eid nome email senha confirma adm salt agora).2 = db ∧
       ∀ u, (cadastrar_usuario db eid nome email senha confirma adm salt agora).1 ≠ .ok u) ∧
    (senha.length < 6 →
       (cadastrar_usuario db eid nome email senha confirma adm salt agora).2 = db ∧
       ∀ u, (cadastrar_usuario db eid nome email senha confirma adm salt agora).1 ≠ .ok u) ∧
    (senha ≠ confirma →
       (cadastrar_usuario db eid nome email senha confirma adm salt agora).2 = db ∧
       ∀ u, (cadastrar_usuario db eid nome email senha confirma adm salt agora).1 ≠ .ok u) ∧
    ((db.empresas.filter (fun e => e.ativa)).isEmpty = true →
       (cadastrar_usuario db eid nome email senha confirma adm salt agora).2 = db ∧
       ∀ u, (cadastrar_usuario db eid nome email senha confirma adm salt agora).1 ≠ .ok u) ∧
    (db.empresas.find? (fun e => e.id == eid) = none →
       (cadastrar_usuario db eid nome email senha confirma adm salt agora).2 = db ∧
       ∀ u, (cadastrar_usuario db eid nome email senha confirma adm salt agora).1 ≠ .ok u) ∧
    (∀ u, (cadastrar_usuario db eid nome email senha confirma adm salt agora).1 = .ok u →
       u.senhaHash = hash_password salt senha ∧
       verify_password senha u.senhaHash = true ∧
       (cadastrar_usuario db eid nome email senha confirma adm salt agora).2.usuarios =
         db.usuarios ++ [u]) := by
  have casos := cadastrar_usuario_casos db eid nome email senha confirma adm salt agora
  have inv := cadastrar_usuario_ok_inv db eid nome email senha confirma adm salt agora
  have fail : (∀ u, (cadastrar_usuario db eid nome email senha confirma adm salt agora).1 ≠ .ok u) →
      (cadastrar_usuario db eid nome email senha confirma adm salt agora).2 = db := by
    intro hno
    rcases casos with ⟨hst, _⟩ | ⟨emp, _, _, _, _, _, _, _, _, heq⟩
    · exact hst
    · exact absurd (by rw [heq]) (hno _)
  refine ⟨fun h => ?_, fun h => ?_, fun h => ?_, fun h => ?_, fun h => ?_,
          fun h => ?_, fun h => ?_, fun u hu => ?_⟩
  · have hno : ∀ u, (cadastrar_usuario db eid nome email senha confirma adm salt agora).1 ≠ .ok u := by
      intro u hu
      have := (inv u hu).2.1
      omega
    exact ⟨fail hno, hno⟩
  · have hno : ∀ u, (cadastrar_usuario db eid nome email senha confirma adm salt agora).1 ≠ .ok u := by
      intro u hu
      obtain ⟨_, _, ha, hp, _⟩ := inv u hu
      rcases h with h | h
      · rw [ha] at h; exact Bool.noConfusion h
      · rw [hp] at h; exact Bool.noConfusion h
    exact ⟨fail hno, hno⟩
  · have hno : ∀ u, (cadastrar_usuario db eid nome email senha confirma adm salt agora).1 ≠ .ok u := by
      intro u hu
      have hd := (inv u hu).2.2.2.2.1
      rw [List.find?_eq_none] at hd
      obtain ⟨v, hv, hve⟩ := h
      exact hd v hv (by simp [hve])
    exact ⟨fail hno, hno⟩
  · have hno : ∀ u, (cadastrar_usuario db eid nome email senha confirma adm salt agora).1 ≠ .ok u := by
      intro u hu
      have := (inv u hu).2.2.2.2.2.1
      omega
    exact ⟨fail hno, hno⟩
  · have hno : ∀ u, (cadastrar_usuario db eid nome email senha confirma adm salt agora).1 ≠ .ok u := by
      intro u hu
      exact h (inv u hu).2.2.2.2.2.2.1
    exact ⟨fail hno, hno⟩
  · have hno : ∀ u, (cadastrar_usuario db eid nome email senha confirma adm salt agora).1 ≠ .ok u := by
      intro u hu
      have := (inv u hu).1
      rw [h] at this
      exact Bool.noConfusion this
    exact ⟨fail hno, hno⟩
  · have hno : ∀ u, (cadastrar_usuario db eid nome email senha confirma adm salt agora).1 ≠ .ok u := by
      intro u hu
      obtain ⟨emp, hemp, _⟩ := (inv u hu).2.2.2.2.2.2.2.1
      rw [h] at hemp
      exact Option.noConfusion hemp
    exact ⟨fail hno, hno⟩
  · obtain ⟨_, _, _, _, _, _, _, ⟨emp, _, hu⟩, hst⟩ := inv u hu
    refine ⟨by rw [hu], by rw [hu]; simp [verify_password, hash_password], by rw [hst]⟩

/-- Concrete instance of cadastrar_usuario_spec: a 5-character password is
rejected and the store is unchanged, and the successful registration of
Bruno Souza stores the hash of the plaintext and appends the user. -/
theorem cadastrar_usuario_spec_witness :
    (("abc12" : String).length < 6 ∧
     (cadastrar_usuario dbDuasEmpresas 1 "Carla Dias" "carla@ex.com"
         "abc12" "abc12" "N" "s" 3).2 = dbDuasEmpresas) ∧
    ((cadastrar_usuario dbDuasEmpresas 2 "Bruno Souza" "bruno@ex.com"
        "segredo1" "segredo1" "N" "salt" 7).1 = .ok usuarioBruno →
     usuarioBruno.senhaHash = hash_password "salt" "segredo1" ∧
       verify_password "segredo1" usuarioBruno.senhaHash = true ∧
       (cadastrar_usuario dbDuasEmpresas 2 "Bruno Souza" "bruno@ex.com"
           "segredo1" "segredo1" "N" "salt" 7).2.usuarios =
         dbDuasEmpresas.usuarios ++ [usuarioBruno]) :=
  ⟨⟨by decide,
    ((cadastrar_usuario_spec dbDuasEmpresas 1 "Carla Dias" "carla@ex.com"
        "abc12" "abc12" "N" "s" 3).2.2.2.1 (by decide)).1⟩,
   (cadastrar_usuario_spec dbDuasEmpresas 2 "Bruno Souza" "bruno@ex.com"
      "segredo1" "segredo1" "N" "salt" 7).2.2.2.2.2.2.2 usuarioBruno⟩

/-- C2: the authorization check tem_permissao returns true for every module
code when the user is an admin, regardless of the granted set; for a
non-admin it returns true exactly when the granted set contains a permission
whose code equals the queried code and whose active flag is true; in
particular a non-admin with an empty granted set is denied every code. -/
theorem tem_permissao_spec (u : Usuario) (c : String) :
    (u.isAdmin = true → tem_permissao u c = true) ∧
    (u.isAdmin = false →
      (tem_permissao u c = true ↔ ∃ p ∈ u.permissoes, p.codigo = c ∧ p.ativa = true)) ∧
    (u.isAdmin = false → u.permissoes = [] → tem_permissao u c = false) := by
  refine ⟨fun h => ?_, fun h => ?_, fun h hp => ?_⟩
  · simp [tem_permissao, h]
  · simp [tem_permissao, h, List.any_eq_true, Bool.and_eq_true, beq_iff_eq]
  · simp [tem_permissao, h, hp]

/-- Concrete instance of tem_permissao_spec: an admin user with an empty
granted set is allowed the code rh, and a non-admin user with an empty
granted set is denied it. -/
theorem tem_permissao_spec_witness :
    (Usuario.isAdmin ⟨1, 1, "Ana Lima", "ana@ex.com", ⟨"s", "p"⟩, true, true, none, 0, 0, []⟩ = true) ∧
    (tem_permissao ⟨1, 1, "Ana Lima", "ana@ex.com", ⟨"s", "p"⟩, true, true, none, 0, 0, []⟩ "rh" = true) ∧
    (tem_permissao ⟨2, 1, "Bia Reis", "bia@ex.com", ⟨"s", "q"⟩, true, false, none, 0, 0, []⟩ "rh" = false) :=
  ⟨rfl,
   (tem_permissao_spec ⟨1, 1, "Ana Lima", "ana@ex.com", ⟨"s", "p"⟩, true, true, none, 0, 0, []⟩ "rh").1 rfl,
   (tem_permissao_spec ⟨2, 1, "Bia Reis", "bia@ex.com", ⟨"s", "q"⟩, true, false, none, 0, 0, []⟩ "rh").2.2 rfl rfl⟩

/-- C9: when no user is logged in (the logged-in reference is None), the
module-level permission check verificar_permissao returns false for every
module code. -/
theorem verificar_permissao_sem_login (c : String) :
    verificar_permissao none c = false := rfl

/-- C8: under the spec-modelled credential hasher, verification succeeds on
the hash of the same plaintext, fails on the hash of any other plaintext,
and two hash calls with distinct (fresh random) salts produce different
hash values even for the same plaintext. -/
theorem hash_verify_spec (p p1 p2 salt s1 s2 : String) :
    (verify_password p (hash_password salt p) = true) ∧
    (p1 ≠ p2 → verify_password p1 (hash_password salt p2) = false) ∧
    (s1 ≠ s2 → hash_password s1 p ≠ hash_password s2 p) := by
  refine ⟨by simp [verify_password, hash_password], fun h => ?_, fun h hc => ?_⟩
  · simp only [verify_password, hash_password, beq_eq_false_iff_ne, ne_eq]
    exact fun hh => h hh.symm
  · exact h (congrArg SenhaHash.salt hc)

/-- Concrete instance of hash_verify_spec: verification of a wrong password
fails, and hashing the same password with two different salts yields two
different stored hashes. -/
theorem hash_verify_spec_witness :
    (verify_password "abc124" (hash_password "s1" "abc123") = false) ∧
    (hash_password "s1" "abc123" ≠ hash_password "s2" "abc123") :=
  ⟨(hash_verify_spec "x" "abc124" "abc123" "s1" "s1" "s2").2.1 (by decide),
   (hash_verify_spec "abc123" "x" "y" "s" "s1" "s2").2.2 (by decide)⟩

theorem fazer_login_casos (db : DB) (email senha : String) (agora : Nat) :
    ((fazer_login db email senha agora).2 = db ∧
     ehFalhaLogin (fazer_login db email senha agora).1 = true) ∨
    (∃ u₀ e, db.usuarios.find? (fun v => v.email == pyLower (pyStrip email)) = some u₀ ∧
       u₀.ativo = true ∧
       db.empresas.find? (fun x => x.id == u₀.empresaId) = some e ∧
       e.ativa = true ∧
       verify_password senha u₀.senhaHash = true ∧
       fazer_login db email senha agora =
         (.ok { u₀ with ultimoLogin := some agora, dataAtualizacao := agora },
          updateUsuario db u₀.id
            (fun _ => { u₀ with ultimoLogin := some agora, dataAtualizacao := agora }))) := by
  simp only [fazer_login]
  split
  · exact Or.inl ⟨rfl, rfl⟩
  · rename_i u₀ hf
    split
    · exact Or.inl ⟨rfl, rfl⟩
    · rename_i ha
      split
      · exact Or.inl ⟨rfl, rfl⟩
      · rename_i e he
        split
        · exact Or.inl ⟨rfl, rfl⟩
        · rename_i hea
          split
          · exact Or.inl ⟨rfl, rfl⟩
          · rename_i hv
            refine Or.inr ⟨u₀, e, hf, by simpa using ha, he, by simpa using hea,
              by simpa using hv, rfl⟩

theorem fazer_login_falha_estado (db : DB) (email senha : String) (agora : Nat)
    (h : ehFalhaLogin (fazer_login db email senha agora).1 = true) :
    (fazer_login db email senha agora).2 = db := by
  rcases fazer_login_casos db email senha agora with
    ⟨hst, _⟩ | ⟨u₀, e, _, _, _, _, _, heq⟩
  · exact hst
  · rw [heq] at h; simp [ehFalhaLogin] at h

/-- C1: the login flow evaluates its checks in the source order: unknown
normalized email rejects with the generic credentials error; then an
inactive user rejects with the user-inactive error; then an inactive
company rejects with the company-inactive error; then a failed password
verification rejects with the generic credentials error; otherwise the
flow returns the user with ultimo_login set to the current clock value and
persists that update. -/
theorem fazer_login_spec (db : DB) (email senha : String) (agora : Nat) :
    (db.usuarios.find? (fun v => v.email == pyLower (pyStrip email)) = none →
       fazer_login db email senha agora = (.errCredenciais, db)) ∧
    (∀ u, db.usuarios.find? (fun v => v.email == pyLower (pyStrip email)) = some u →
       u.ativo = false →
       fazer_login db email senha agora = (.errUsuarioInativo, db)) ∧
    (∀ u e, db.usuarios.find? (fun v => v.email == pyLower (pyStrip email)) = some u →
       u.ativo = true →
       db.empresas.find? (fun x => x.id == u.empresaId) = some e →
       e.ativa = false →
       fazer_login db email senha agora = (.errEmpresaInativa, db)) ∧
    (∀ u e, db.usuarios.find? (fun v => v.email == pyLower (pyStrip email)) = some u →
       u.ativo = true →
       db.empresas.find? (fun x => x.id == u.empresaId) = some e →
       e.ativa = true →
       verify_password senha u.senhaHash = false →
       fazer_login db email senha agora = (.errCredenciais, db)) ∧
    (∀ u e, db.usuarios.find? (fun v => v.email == pyLower (pyStrip email)) = some u →
       u.ativo = true →
       db.empresas.find? (fun x => x.id == u.empresaId) = some e →
       e.ativa = true →
       verify_password senha u.senhaHash = true →
       (fazer_login db email senha agora).1 =
         .ok { u with ultimoLogin := some agora, dataAtualizacao := agora } ∧
       ({ u with ultimoLogin := some agora, dataAtualizacao := agora } : Usuario) ∈
         (fazer_login db email senha agora).2.usuarios) := by
  refine ⟨fun h => ?_, fun u hf ha => ?_, fun u e hf ha he hea => ?_,
          fun u e hf ha he hea hv => ?_, fun u e hf ha he hea hv => ?_⟩
  · simp [fazer_login, h]
  · simp [fazer_login, hf, ha]
  · simp [fazer_login, hf, ha, he, hea]
  · simp [fazer_login, hf, ha, he, hea, hv]
  · have hrun : fazer_login db email senha agora =
        (.ok { u with ultimoLogin := some agora, dataAtualizacao := agora },
         updateUsuario db u.id
           (fun _ => { u with ultimoLogin := some agora, dataAtualizacao := agora })) := by
      simp [fazer_login, hf, ha, he, hea, hv]
    rw [hrun]
    refine ⟨rfl, ?_⟩
    have hm := List.mem_of_find?_eq_some hf
    have hmap := List.mem_map_of_mem
      (fun v => if v.id == u.id then
        ({ u with ultimoLogin := some agora, dataAtualizacao := agora } : Usuario)
      else v) hm
    simpa [updateUsuario] using hmap

/-- Concrete instance of fazer_login_spec: the stored user with the
normalized email of the supplied address exists, is active, has an active
company and the right password, so login succeeds, returns the user with
ultimo_login set to the clock value, and persists it. -/
theorem fazer_login_spec_witness :
    (dbLogin.usuarios.find? (fun v => v.email == pyLower (pyStrip "  Ana@Ex.com ")) =
       some usuarioAna) ∧
    (usuarioAna.ativo = true) ∧
    (dbLogin.empresas.find? (fun x => x.id == usuarioAna.empresaId) = some empresaAcme) ∧
    (empresaAcme.ativa = true) ∧
    (verify_password "segredo1" usuarioAna.senhaHash = true) ∧
    ((fazer_login dbLogin "  Ana@Ex.com " "segredo1" 9).1 =
       .ok { usuarioAna with ultimoLogin := some 9, dataAtualizacao := 9 } ∧
     ({ usuarioAna with ultimoLogin := some 9, dataAtualizacao := 9 } : Usuario) ∈
       (fazer_login dbLogin "  Ana@Ex.com " "segredo1" 9).2.usuarios) :=
  ⟨by decide, rfl, by decide, rfl, by decide,
   (fazer_login_spec dbLogin "  Ana@Ex.com " "segredo1" 9).2.2.2.2 usuarioAna empresaAcme
     (by decide) rfl (by decide) rfl (by decide)⟩

/-- C10: a successful login changes nothing but the logged-in user's
ultimo_login (and the auto-maintained data_atualizacao): the companies
and permissions tables and the id counters are untouched, the returned
user agrees with the stored one on every other field, every other user
is unchanged in both directions, and the rows carrying the logged-in id
all equal the returned user. -/
theorem fazer_login_frame (db : DB) (email senha : String) (agora : Nat) (u : Usuario)
    (h : (fazer_login db email senha agora).1 = .ok u) :
    (fazer_login db email senha agora).2.empresas = db.empresas ∧
    (fazer_login db email senha agora).2.permissoes = db.permissoes ∧
    (fazer_login db email senha agora).2.nextEmpresaId = db.nextEmpresaId ∧
    (fazer_login db email senha agora).2.nextUsuarioId = db.nextUsuarioId ∧
    (fazer_login db email senha agora).2.nextPermissaoId = db.nextPermissaoId ∧
    ∃ u₀ ∈ db.usuarios,
      u = { u₀ with ultimoLogin := some agora, dataAtualizacao := agora } ∧
      u.email = u₀.email ∧ u.senhaHash = u₀.senhaHash ∧ u.ativo = u₀.ativo ∧
      u.isAdmin = u₀.isAdmin ∧ u.empresaId = u₀.empresaId ∧
      u.permissoes = u₀.permissoes ∧ u.ultimoLogin = some agora ∧
      (∀ v ∈ db.usuarios, v.id ≠ u₀.id → v ∈ (fazer_login db email senha agora).2.usuarios) ∧
      (∀ v ∈ (fazer_login db email senha agora).2.usuarios, v.id ≠ u₀.id → v ∈ db.usuarios) ∧
      (∀ v ∈ (fazer_login db email senha agora).2.usuarios, v.id = u₀.id → v = u) := by
  rcases fazer_login_casos db email senha agora with
    ⟨_, hfail⟩ | ⟨u₀, e, hf, _, _, _, _, heq⟩
  · rw [h] at hfail; simp [ehFalhaLogin] at hfail
  · simp only [heq] at h
    injection h with hu
    refine ⟨by rw [heq]; rfl, by rw [heq]; rfl, by rw [heq]; rfl, by rw [heq]; rfl,
            by rw [heq]; rfl, u₀, List.mem_of_find?_eq_some hf, hu.symm, ?_, ?_, ?_, ?_,
            ?_, ?_, ?_, ?_, ?_, ?_⟩
    · rw [← hu]
    · rw [← hu]
    · rw [← hu]
    · rw [← hu]
    · rw [← hu]
    · rw [← hu]
    · rw [← hu]
    · intro v hv hvid
      rw [heq]
      simp only [updateUsuario, List.mem_map]
      refine ⟨v, hv, ?_⟩
      rw [if_neg (by simpa using hvid)]
    · intro v hv hvid
      rw [heq] at hv
      simp only [updateUsuario, List.mem_map] at hv
      obtain ⟨w, hw, hwv⟩ := hv
      by_cases hwi : w.id == u₀.id
      · rw [if_pos hwi] at hwv
        exact absurd (by rw [← hwv]) hvid
      · rw [if_neg hwi] at hwv
        rw [← hwv]; exact hw
    · intro v hv hvid
      rw [heq] at hv
      simp only [updateUsuario, List.mem_map] at hv
      obtain ⟨w, hw, hwv⟩ := hv
      by_cases hwi : w.id == u₀.id
      · rw [if_pos hwi] at hwv
        rw [← hwv, ← hu]
      · rw [if_neg hwi] at hwv
        exfalso
        rw [← hwv] at hvid
        exact hwi (by simp [hvid])

/-- Concrete instance of fazer_login_frame: after Ana's successful login,
companies and permissions are untouched and the only change to the users
table is her ultimo_login and data_atualizacao. -/
theorem fazer_login_frame_witness :
    ((fazer_login dbLogin "ana@ex.com" "segredo1" 9).1 =
       .ok { usuarioAna with ultimoLogin := some 9, dataAtualizacao := 9 }) ∧
    ((fazer_login dbLogin "ana@ex.com" "segredo1" 9).2.empresas = dbLogin.empresas ∧
     (fazer_login dbLogin "ana@ex.com" "segredo1" 9).2.permissoes = dbLogin.permissoes ∧
     (fazer_login dbLogin "ana@ex.com" "segredo1" 9).2.nextEmpresaId = dbLogin.nextEmpresaId ∧
     (fazer_login dbLogin "ana@ex.com" "segredo1" 9).2.nextUsuarioId = dbLogin.nextUsuarioId ∧
     (fazer_login dbLogin "ana@ex.com" "segredo1" 9).2.nextPermissaoId = dbLogin.nextPermissaoId ∧
     ∃ u₀ ∈ dbLogin.usuarios,
       ({ usuarioAna with ultimoLogin := some 9, dataAtualizacao := 9 } : Usuario) =
         { u₀ with ultimoLogin := some 9, dataAtualizacao := 9 } ∧
       Usuario.email { usuarioAna with ultimoLogin := some 9, dataAtualizacao := 9 } = u₀.email ∧
       Usuario.senhaHash { usuarioAna with ultimoLogin := some 9, dataAtualizacao := 9 } = u₀.senhaHash ∧
       Usuario.ativo { usuarioAna with ultimoLogin := some 9, dataAtualizacao := 9 } = u₀.ativo ∧
       Usuario.isAdmin { usuarioAna with ultimoLogin := some 9, dataAtualizacao := 9 } = u₀.isAdmin ∧
       Usuario.empresaId { usuarioAna with ultimoLogin := some 9, dataAtualizacao := 9 } = u₀.empresaId ∧
       Usuario.permissoes { usuarioAna with ultimoLogin := some 9, dataAtualizacao := 9 } = u₀.permissoes ∧
       Usuario.ultimoLogin { usuarioAna with ultimoLogin := some 9, dataAtualizacao := 9 } = some 9 ∧
       (∀ v ∈ dbLogin.usuarios, v.id ≠ u₀.id →
          v ∈ (fazer_login dbLogin "ana@ex.com" "segredo1" 9).2.usuarios) ∧
       (∀ v ∈ (fazer_login dbLogin "ana@ex.com" "segredo1" 9).2.usuarios, v.id ≠ u₀.id →
          v ∈ dbLogin.usuarios) ∧
       (∀ v ∈ (fazer_login dbLogin "ana@ex.com" "segredo1" 9).2.usuarios, v.id = u₀.id →
          v = { usuarioAna with ultimoLogin := some 9, dataAtualizacao := 9 })) :=
  ⟨by decide,
   fazer_login_frame dbLogin "ana@ex.com" "segredo1" 9
     { usuarioAna with ultimoLogin := some 9, dataAtualizacao := 9 } (by decide)⟩

theorem seedStep_usuarios (s : DB) (pd : String × String × String) :
    (seedStep s pd).usuarios = s.usuarios := by
  unfold seedStep; split <;> rfl

theorem seedStep_empresas (s : DB) (pd : String × String × String) :
    (seedStep s pd).empresas = s.empresas := by
  unfold seedStep; split <;> rfl

theorem foldl_seedStep_usuarios (l : List (String × String × String)) :
    ∀ s : DB, (l.foldl seedStep s).usuarios = s.usuarios := by
  induction l with
  | nil => intro s; rfl
  | cons q t ih =>
      intro s
      rw [List.foldl_cons, ih (seedStep s q), seedStep_usuarios]

theorem foldl_seedStep_empresas (l : List (String × String × String)) :
    ∀ s : DB, (l.foldl seedStep s).empresas = s.empresas := by
  induction l with
  | nil => intro s; rfl
  | cons q t ih =>
      intro s
      rw [List.foldl_cons, ih (seedStep s q), seedStep_empresas]

theorem catalogoEfetivo_usuarios (db : DB) :
    (catalogoEfetivo db).usuarios = db.usuarios := by
  unfold catalogoEfetivo
  split
  · exact foldl_seedStep_usuarios permissoesPadrao db
  · rfl

theorem catalogoEfetivo_empresas (db : DB) :
    (catalogoEfetivo db).empresas = db.empresas := by
  unfold catalogoEfetivo
  split
  · exact foldl_seedStep_empresas permissoesPadrao db
  · rfl

theorem updateUsuario_permissoes_eq (db1 : DB) (uid : Nat) (g : Usuario → Usuario)
    (v : Usuario)
    (hv : v ∈ (updateUsuario db1 uid g).usuarios) (hid : v.id = uid)
    (X : List Permissao) (hX : ∀ w, (g w).permissoes = X) :
    v.permissoes = X := by
  simp only [updateUsuario, List.mem_map] at hv
  obtain ⟨w, hw, hwv⟩ := hv
  by_cases hwi : w.id == uid
  · rw [if_pos hwi] at hwv
    rw [← hwv]
    exact hX w
  · rw [if_neg hwi] at hwv
    rw [← hwv] at hid
    exact absurd (by simp [hid]) hwi

theorem find?_id_updateUsuario (l : List Usuario) (uid : Nat) (f : Usuario → Usuario)
    (hpres : ∀ v, (f v).id = v.id) :
    (l.map (fun v => if v.id == uid then f v else v)).find? (fun v => v.id == uid) =
      (l.find? (fun v => v.id == uid)).map f := by
  induction l with
  | nil => rfl
  | cons w t ih =>
      by_cases hw : (w.id == uid) = true
      · have hfw : ((f w).id == uid) = true := by rw [hpres w]; exact hw
        simp only [List.map_cons, if_pos hw]
        rw [List.find?_cons_of_pos, List.find?_cons_of_pos]
        · rfl
        · exact hw
        · exact hfw
      · simp only [List.map_cons, if_neg hw]
        rw [List.find?_cons_of_neg, List.find?_cons_of_neg]
        · exact ih
        · exact hw
        · exact hw

theorem mem_filterMap_find_por_id (cat : List Permissao) (ids : List Int)
    (hnd : (cat.map (fun p => p.id)).Nodup) (p : Permissao) :
    (p ∈ ids.filterMap (fun i => cat.find? (fun q => (q.id : Int) == i))) ↔
      (p ∈ cat ∧ (p.id : Int) ∈ ids) := by
  constructor
  · intro hp
    rw [List.mem_filterMap] at hp
    obtain ⟨i, hi, hfind⟩ := hp
    have hmem := List.mem_of_find?_eq_some hfind
    have hpred := List.find?_some hfind
    have hpi : (p.id : Int) = i := by simpa using hpred
    exact ⟨hmem, hpi ▸ hi⟩
  · rintro ⟨hp, hid⟩
    rw [List.mem_filterMap]
    refine ⟨(p.id : Int), hid, ?_⟩
    have hsome : (cat.find? (fun q => (q.id : Int) == (p.id : Int))).isSome := by
      rw [List.find?_isSome]
      exact ⟨p, hp, by simp⟩
    cases hfq : cat.find? (fun q => (q.id : Int) == (p.id : Int)) with
    | none => rw [hfq] at hsome; simp at hsome
    | some q =>
        have hqmem := List.mem_of_find?_eq_some hfq
        have hqpred := List.find?_some hfq
        have hqp : q.id = p.id := by simpa using hqpred
        have : q = p := List.inj_on_of_nodup_map hnd hqmem hp hqp
        rw [this]

theorem configurar_naoEncontrado (db : DB) (uid : Nat) (escolha : String)
    (h : db.usuarios.find? (fun v => v.id == uid) = none) :
    configurar_permissoes_usuario db uid escolha = (.errUsuarioNaoEncontrado, db) := by
  simp only [configurar_permissoes_usuario, h]

theorem configurar_admin (db : DB) (uid : Nat) (escolha : String) (u : Usuario)
    (hu : db.usuarios.find? (fun v => v.id == uid) = some u)
    (ha : u.isAdmin = true) :
    configurar_permissoes_usuario db uid escolha = (.adminSemAlteracao, db) := by
  simp only [configurar_permissoes_usuario, hu, ha, if_true]

theorem configurar_nenhum (db : DB) (uid : Nat) (escolha : String) (u : Usuario)
    (hu : db.usuarios.find? (fun v => v.id == uid) = some u)
    (ha : u.isAdmin = false)
    (he : pyLower (pyStrip escolha) = "nenhum") :
    configurar_permissoes_usuario db uid escolha =
      (.removidas,
       updateUsuario (catalogoEfetivo db) uid (fun w => { w with permissoes := [] })) := by
  simp [configurar_permissoes_usuario, hu, ha, he]

theorem configurar_todos (db : DB) (uid : Nat) (escolha : String) (u : Usuario)
    (hu : db.usuarios.find? (fun v => v.id == uid) = some u)
    (ha : u.isAdmin = false)
    (he : pyLower (pyStrip escolha) = "todos") :
    configurar_permissoes_usuario db uid escolha =
      (.todas,
       updateUsuario (catalogoEfetivo db) uid
         (fun w => { w with
           permissoes := (catalogoEfetivo db).permissoes.filter (fun p => p.ativa) })) := by
  simp [configurar_permissoes_usuario, hu, ha, he]

theorem configurar_ids (db : DB) (uid : Nat) (escolha : String) (u : Usuario)
    (ids : List Int)
    (hu : db.usuarios.find? (fun v => v.id == uid) = some u)
    (ha : u.isAdmin = false)
    (he1 : pyLower (pyStrip escolha) ≠ "nenhum")
    (he2 : pyLower (pyStrip escolha) ≠ "todos")
    (hp : parseIds (pyLower (pyStrip escolha)) = some ids) :
    configurar_permissoes_usuario db uid escolha =
      (.configuradas,
       updateUsuario (catalogoEfetivo db) uid
         (fun w => { w with
           permissoes := ids.filterMap
             (fun i => (catalogoEfetivo db).permissoes.find?
               (fun p => (p.id : Int) == i)) })) := by
  simp [configurar_permissoes_usuario, hu, ha, he1, he2, hp]

theorem configurar_errValor (db : DB) (uid : Nat) (escolha : String) (u : Usuario)
    (hu : db.usuarios.find? (fun v => v.id == uid) = some u)
    (ha : u.isAdmin = false)
    (he1 : pyLower (pyStrip escolha) ≠ "nenhum")
    (he2 : pyLower (pyStrip escolha) ≠ "todos")
    (hp : parseIds (pyLower (pyStrip escolha)) = none) :
    configurar_permissoes_usuario db uid escolha = (.errValor, catalogoEfetivo db) := by
  simp [configurar_permissoes_usuario, hu, ha, he1, he2, hp]

/-- C5: for a non-admin target user the permission-assignment operation
replaces the granted set: selector nenhum clears it; selector todos makes
it exactly the currently-active catalog permissions; an explicit id list
makes it exactly the existing catalog permissions whose ids appear in the
list, unknown ids silently ignored (the result is still the configured
outcome, not an error); for an admin target the whole operation is a
no-op; and todos followed by nenhum leaves zero granted permissions. -/
theorem configurar_permissoes_spec (db : DB) (uid : Nat) (escolha : String) (u : Usuario)
    (hu : db.usuarios.find? (fun v => v.id == uid) = some u) :
    (u.isAdmin = true →
       configurar_permissoes_usuario db uid escolha = (.adminSemAlteracao, db)) ∧
    (u.isAdmin = false → pyLower (pyStrip escolha) = "nenhum" →
       (configurar_permissoes_usuario db uid escolha).1 = .removidas ∧
       ∀ v ∈ (configurar_permissoes_usuario db uid escolha).2.usuarios,
         v.id = uid → v.permissoes = []) ∧
    (u.isAdmin = false → pyLower (pyStrip escolha) = "todos" →
       (configurar_permissoes_usuario db uid escolha).1 = .todas ∧
       ∀ v ∈ (configurar_permissoes_usuario db uid escolha).2.usuarios,
         v.id = uid →
           v.permissoes =
             (configurar_permissoes_usuario db uid escolha).2.permissoes.filter
               (fun p => p.ativa)) ∧
    (∀ ids, u.isAdmin = false →
       pyLower (pyStrip escolha) ≠ "nenhum" → pyLower (pyStrip escolha) ≠ "todos" →
       parseIds (pyLower (pyStrip escolha)) = some ids →
       ((catalogoEfetivo db).permissoes.map (fun p => p.id)).Nodup →
       (configurar_permissoes_usuario db uid escolha).1 = .configuradas ∧
       ∀ v ∈ (configurar_permissoes_usuario db uid escolha).2.usuarios,
         v.id = uid →
           ∀ p, p ∈ v.permissoes ↔
             (p ∈ (configurar_permissoes_usuario db uid escolha).2.permissoes ∧
              (p.id : Int) ∈ ids)) ∧
    (u.isAdmin = false →
       ∀ v ∈ (configurar_permissoes_usuario
                (configurar_permissoes_usuario db uid "todos").2 uid "nenhum").2.usuarios,
         v.id = uid → v.permissoes = []) := by
  refine ⟨fun ha => configurar_admin db uid escolha u hu ha,
          fun ha he => ?_, fun ha he => ?_, fun ids ha he1 he2 hp hnd => ?_, fun ha => ?_⟩
  · rw [configurar_nenhum db uid escolha u hu ha he]
    refine ⟨rfl, fun v hv hid => ?_⟩
    exact updateUsuario_permissoes_eq _ uid _ v hv hid [] (fun w => rfl)
  · rw [configurar_todos db uid escolha u hu ha he]
    refine ⟨rfl, fun v hv hid => ?_⟩
    exact updateUsuario_permissoes_eq _ uid _ v hv hid
      ((catalogoEfetivo db).permissoes.filter (fun p => p.ativa)) (fun w => rfl)
  · rw [configurar_ids db uid escolha u ids hu ha he1 he2 hp]
    refine ⟨rfl, fun v hv hid p => ?_⟩
    have hperm := updateUsuario_permissoes_eq _ uid _ v hv hid
      (ids.filterMap
        (fun i => (catalogoEfetivo db).permissoes.find? (fun q => (q.id : Int) == i)))
      (fun w => rfl)
    rw [hperm]
    exact mem_filterMap_find_por_id (catalogoEfetivo db).permissoes ids hnd p
  · intro v hv hid
    have hT : pyLower (pyStrip "todos") = "todos" := by decide
    have hN : pyLower (pyStrip "nenhum") = "nenhum" := by decide
    have run1 := configurar_todos db uid "todos" u hu ha hT
    have hfind : (configurar_permissoes_usuario db uid "todos").2.usuarios.find?
        (fun w => w.id == uid) =
        some { u with
          permissoes := (catalogoEfetivo db).permissoes.filter (fun p => p.ativa) } := by
      rw [run1]
      show ((catalogoEfetivo db).usuarios.map
        (fun w => if w.id == uid then
          ({ w with
             permissoes := (catalogoEfetivo db).permissoes.filter (fun p => p.ativa) } : Usuario)
        else w)).find? (fun w => w.id == uid) = _
      rw [find?_id_updateUsuario (catalogoEfetivo db).usuarios uid
            (fun w => { w with
              permissoes := (catalogoEfetivo db).permissoes.filter (fun p => p.ativa) })
            (fun w => rfl),
          catalogoEfetivo_usuarios, hu]
      rfl
    have run2 := configurar_nenhum (configurar_permissoes_usuario db uid "todos").2 uid
      "nenhum"
      { u with permissoes := (catalogoEfetivo db).permissoes.filter (fun p => p.ativa) }
      hfind ha hN
    rw [run2] at hv
    exact updateUsuario_permissoes_eq _ uid _ v hv hid [] (fun w => rfl)

/-- Concrete instance of configurar_permissoes_spec: granting Beto all
modules and then removing all leaves him with zero granted permissions. -/
theorem configurar_permissoes_spec_witness :
    (dbBeto.usuarios.find? (fun v => v.id == 1) = some usuarioBeto) ∧
    (usuarioBeto.isAdmin = false) ∧
    (∀ v ∈ (configurar_permissoes_usuario
             (configurar_permissoes_usuario dbBeto 1 "todos").2 1 "nenhum").2.usuarios,
       v.id = 1 → v.permissoes = []) :=
  ⟨by decide, rfl,
   (configurar_permissoes_spec dbBeto 1 "todos" usuarioBeto (by decide)).2.2.2.2 rfl⟩

theorem cadastrar_empresa_estado (db : DB) (nome cnpj seg : String) (agora : Nat) :
    (cadastrar_empresa db nome cnpj seg agora).2 = db ∨
    ∃ e, (cadastrar_empresa db nome cnpj seg agora).1 = .ok e := by
  simp only [cadastrar_empresa]
  split
  · exact Or.inl rfl
  · split
    · exact Or.inl rfl
    · split
      · exact Or.inl rfl
      · exact Or.inr ⟨_, rfl⟩

/-- C6 (counterexample): with an empty permission catalog, a
permission-assignment whose selector fails to parse returns the ValueError
outcome yet leaves the store changed: the default permission catalog has
been seeded (five rows where there were none), so the failing operation
does not leave the store in its prior state. -/
theorem configurar_falha_semeia_catalogo :
    (configurar_permissoes_usuario dbBeto 1 "abc").1 = .errValor ∧
    (configurar_permissoes_usuario dbBeto 1 "abc").2 ≠ dbBeto ∧
    (configurar_permissoes_usuario dbBeto 1 "abc").2.permissoes.length = 5 ∧
    dbBeto.permissoes.length = 0 := by
  refine ⟨?_, ?_, ?_, ?_⟩ <;> decide

/-- C6 (amended): a rejected login leaves the store exactly as it was (so
ultimo_login changes only on success), a failed user or company
registration leaves the store exactly as it was, and a failed
permission-assignment leaves every user (hence every granted set) and
every company unchanged — the store either is untouched or has only had
the default permission catalog seeded first (the one deviation from full
rollback). -/
theorem falhas_preservam_estado :
    (∀ (db : DB) (email senha : String) (agora : Nat),
       ehFalhaLogin (fazer_login db email senha agora).1 = true →
       (fazer_login db email senha agora).2 = db) ∧
    (∀ (db : DB) (eid : Nat) (nome email senha confirma adm salt : String) (agora : Nat),
       ehFalhaUsuario (cadastrar_usuario db eid nome email senha confirma adm salt agora).1 = true →
       (cadastrar_usuario db eid nome email senha confirma adm salt agora).2 = db) ∧
    (∀ (db : DB) (nome cnpj seg : String) (agora : Nat),
       ehFalhaEmpresa (cadastrar_empresa db nome cnpj seg agora).1 = true →
       (cadastrar_empresa db nome cnpj seg agora).2 = db) ∧
    (∀ (db : DB) (uid : Nat) (escolha : String),
       ehFalhaConfig (configurar_permissoes_usuario db uid escolha).1 = true →
       (configurar_permissoes_usuario db uid escolha).2.usuarios = db.usuarios ∧
       (configurar_permissoes_usuario db uid escolha).2.empresas = db.empresas ∧
       ((configurar_permissoes_usuario db uid escolha).2 = db ∨
        (configurar_permissoes_usuario db uid escolha).2 = catalogoEfetivo db)) := by
  refine ⟨fazer_login_falha_estado,
          cadastrar_usuario_falha_estado,
          fun db nome cnpj seg agora h => ?_,
          fun db uid escolha h => ?_⟩
  · rcases cadastrar_empresa_estado db nome cnpj seg agora with hst | ⟨e, he⟩
    · exact hst
    · rw [he] at h; simp [ehFalhaEmpresa] at h
  · cases hf0 : db.usuarios.find? (fun v => v.id == uid) with
    | none =>
        rw [configurar_naoEncontrado db uid escolha hf0]
        exact ⟨rfl, rfl, Or.inl rfl⟩
    | some u =>
        cases hA : u.isAdmin with
        | true =>
            rw [configurar_admin db uid escolha u hf0 hA]
            exact ⟨rfl, rfl, Or.inl rfl⟩
        | false =>
            by_cases h1 : pyLower (pyStrip escolha) = "nenhum"
            · rw [configurar_nenhum db uid escolha u hf0 hA h1] at h
              simp [ehFalhaConfig] at h
            · by_cases h2 : pyLower (pyStrip escolha) = "todos"
              · rw [configurar_todos db uid escolha u hf0 hA h2] at h
                simp [ehFalhaConfig] at h
              · cases hp : parseIds (pyLower (pyStrip escolha)) with
                | some ids =>
                    rw [configurar_ids db uid escolha u ids hf0 hA h1 h2 hp] at h
                    simp [ehFalhaConfig] at h
                | none =>
                    rw [configurar_errValor db uid escolha u hf0 hA h1 h2 hp]
                    exact ⟨catalogoEfetivo_usuarios db, catalogoEfetivo_empresas db,
                           Or.inr rfl⟩

/-- Concrete instance of falhas_preservam_estado: a wrong-password login
leaves the store untouched, and a permission-assignment with an
unparsable selector leaves users and companies untouched (only the
catalog was seeded). -/
theorem falhas_preservam_estado_witness :
    (ehFalhaLogin (fazer_login dbLogin "ana@ex.com" "errada" 9).1 = true) ∧
    ((fazer_login dbLogin "ana@ex.com" "errada" 9).2 = dbLogin) ∧
    (ehFalhaConfig (configurar_permissoes_usuario dbBeto 1 "abc").1 = true) ∧
    ((configurar_permissoes_usuario dbBeto 1 "abc").2.usuarios = dbBeto.usuarios ∧
     (configurar_permissoes_usuario dbBeto 1 "abc").2.empresas = dbBeto.empresas ∧
     ((configurar_permissoes_usuario dbBeto 1 "abc").2 = dbBeto ∨
      (configurar_permissoes_usuario dbBeto 1 "abc").2 = catalogoEfetivo dbBeto)) :=
  ⟨by decide,
   falhas_preservam_estado.1 dbLogin "ana@ex.com" "errada" 9 (by decide),
   by decide,
   falhas_preservam_estado.2.2.2 dbBeto 1 "abc" (by decide)⟩

end EstoqueCerto
